import Mathlib

/-!
Verification of the Request Execution & Telemetry Aggregation Subsystem of the
API-TRACKER repository.  Every definition below is a shallow embedding of a
concrete piece of the JavaScript source; the file/line of the embedded code is
cited on each definition.  Machine numbers are modelled as `Nat`/`Int` with
exact rational rounding (all quantities involved are integers well below 2^53,
where JavaScript double arithmetic on integers is exact).
-/

/-- Model of JavaScript `Math.round(num / den)` for integer `num` and positive
integer `den`.  `Math.round x = ⌊x + 1/2⌋` (halves round toward +∞), and for a
positive divisor Lean's `Int` division `/` (E-division) is floor division, so
`⌊num/den + 1/2⌋ = (2*num + den) / (2*den)`.  Every use in the source has a
positive divisor (`totalRequests` after its increment). -/
def jroundInt (num den : Int) : Int :=
  (2 * num + den) / (2 * den)

/-- Model of JavaScript `Math.round(num / den)` on natural operands with
`den > 0`: `⌊num/den + 1/2⌋ = (2*num + den) / (2*den)` in `Nat` division. -/
def jroundNat (num den : Nat) : Nat :=
  (2 * num + den) / (2 * den)

/-- The `metrics` sub-document of an `ApiEndpoint`
(src/models/ApiEndpoint.js:134-158).  `uptime` is never touched by the code
under study and is omitted; `lastRequestTime` is a `Date`, modelled as epoch
milliseconds. -/
structure Metrics where
  totalRequests : Nat
  successfulRequests : Nat
  failedRequests : Nat
  averageResponseTime : Int
  lastRequestTime : Option Int
deriving DecidableEq

/-- Schema defaults for a fresh endpoint's metrics
(src/models/ApiEndpoint.js:134-158): every counter 0, no last-request time. -/
def initMetrics : Metrics :=
  { totalRequests := 0
    successfulRequests := 0
    failedRequests := 0
    averageResponseTime := 0
    lastRequestTime := none }

/-- The Metrics Recorder update of src/routes/api.js:425-439, applied to one
completed telemetry record:

  endpoint.metrics.totalRequests += 1;
  endpoint.metrics.lastRequestTime = new Date();
  if (statusCode >= 200 && statusCode < 300) {
    endpoint.metrics.successfulRequests += 1;
  } else if (statusCode >= 400) {
    endpoint.metrics.failedRequests += 1;
  }
  const currentAvg = endpoint.metrics.averageResponseTime;
  const totalRequests = endpoint.metrics.totalRequests;
  endpoint.metrics.averageResponseTime = Math.round(
    ((currentAvg * (totalRequests - 1)) + duration) / totalRequests);
-/
def applyRecord (m : Metrics) (statusCode : Nat) (duration : Int) (now : Int) :
    Metrics :=
  let m1 := { m with totalRequests := m.totalRequests + 1
                     lastRequestTime := some now }
  let m2 :=
    if 200 ≤ statusCode ∧ statusCode < 300 then
      { m1 with successfulRequests := m1.successfulRequests + 1 }
    else if 400 ≤ statusCode then
      { m1 with failedRequests := m1.failedRequests + 1 }
    else m1
  let total : Int := (m2.totalRequests : Int)
  { m2 with averageResponseTime :=
      jroundInt (m2.averageResponseTime * (total - 1) + duration) total }

/-- Iterate the Metrics Recorder over a sequence of recorded durations on one
endpoint, starting from the schema defaults.  The status code (fixed to 200
here) and wall-clock time do not influence `averageResponseTime`. -/
def recordDurations (ds : List Int) : Metrics :=
  ds.foldl (fun m d => applyRecord m 200 d 0) initMetrics

/-- The invariant of spec §3 on an endpoint's metrics counters. -/
def metricsInv (m : Metrics) : Prop :=
  m.successfulRequests + m.failedRequests ≤ m.totalRequests

/-- Rounding by 1 is the identity: `Math.round(d / 1) = d`. -/
theorem jroundInt_one (d : Int) : jroundInt d 1 = d := by
  simp only [jroundInt, mul_one]
  omega

/-- The average field produced by one recorder update, rewritten with the
pre-increment total. -/
theorem applyRecord_averageResponseTime (m : Metrics) (sc : Nat) (d : Int)
    (now : Int) :
    (applyRecord m sc d now).averageResponseTime =
      jroundInt (m.averageResponseTime * (m.totalRequests : Int) + d)
        ((m.totalRequests : Int) + 1) := by
  unfold applyRecord
  split_ifs <;> simp

/-- The total-requests field after one recorder update. -/
theorem applyRecord_totalRequests (m : Metrics) (sc : Nat) (d : Int)
    (now : Int) :
    (applyRecord m sc d now).totalRequests = m.totalRequests + 1 := by
  unfold applyRecord
  split_ifs <;> rfl

/-- C1 counterexample: after recording durations 1, 0, 0 the running
`averageResponseTime` is 1, while `round(mean(1,0,0)) = round(1/3) = 0`; the
incremental rounded update does not equal the batch rounded mean. -/
theorem c1_counterexample_drift :
    (recordDurations [1, 0, 0]).averageResponseTime ≠
      jroundInt ([1, 0, 0] : List Int).sum (([1, 0, 0] : List Int).length : Int) := by
  decide

/-- C1 (amended): the running `averageResponseTime` equals the batch rounded
mean `round(mean(durations))` for N = 1 and N = 2 recorded durations; for
N ≥ 3 the two can differ because the stored average is itself already rounded
(see the counterexample with durations 1, 0, 0). -/
theorem c1_amended_running_mean (d1 d2 : Int) :
    (recordDurations [d1]).averageResponseTime = jroundInt d1 1 ∧
    (recordDurations [d1, d2]).averageResponseTime = jroundInt (d1 + d2) 2 := by
  constructor
  · show (applyRecord initMetrics 200 d1 0).averageResponseTime = jroundInt d1 1
    rw [applyRecord_averageResponseTime]
    simp [initMetrics]
  · show (applyRecord (applyRecord initMetrics 200 d1 0) 200 d2 0).averageResponseTime
        = jroundInt (d1 + d2) 2
    rw [applyRecord_averageResponseTime, applyRecord_totalRequests,
      applyRecord_averageResponseTime]
    simp [initMetrics, jroundInt_one]

/-- C2 counterexample: a record with `statusCode = 0` (network failure) does
not increment `failedRequests` — the recorder checks only `statusCode >= 400`
(src/routes/api.js:430), so the claim that status 0 contributes to
`failedRequests` is false. -/
theorem c2_counterexample_statusCode_zero :
    ¬ (applyRecord initMetrics 0 500 0).failedRequests =
        initMetrics.failedRequests + 1 := by
  decide

/-- C2 (amended): for every applied record, `successfulRequests` is
incremented iff `200 ≤ statusCode < 300`, and `failedRequests` is incremented
iff `statusCode ≥ 400`; a record with `statusCode = 0` increments neither
counter (only `totalRequests`). -/
theorem c2_amended_counter_increments (m : Metrics) (sc : Nat) (d : Int)
    (now : Int) :
    (applyRecord m sc d now).successfulRequests =
        m.successfulRequests + (if 200 ≤ sc ∧ sc < 300 then 1 else 0) ∧
    (applyRecord m sc d now).failedRequests =
        m.failedRequests + (if 400 ≤ sc then 1 else 0) := by
  unfold applyRecord
  split_ifs <;> simp_all <;> omega

/-- C4: the counter invariant `successfulRequests + failedRequests ≤
totalRequests` holds for the schema defaults and is preserved by every
Metrics Recorder update, whatever the record's status code. -/
theorem c4_metrics_invariant (m : Metrics) (sc : Nat) (d : Int) (now : Int)
    (h : metricsInv m) :
    metricsInv initMetrics ∧ metricsInv (applyRecord m sc d now) := by
  unfold metricsInv at *
  unfold applyRecord
  refine ⟨by decide, ?_⟩
  split_ifs <;> simp <;> omega

/-- C4 witness: the invariant theorem applied at the default metrics and a
concrete network-failure record. -/
theorem c4_metrics_invariant_witness :
    metricsInv initMetrics ∧ metricsInv (applyRecord initMetrics 0 5 0) :=
  c4_metrics_invariant initMetrics 0 5 0 (by unfold metricsInv; decide)

/-- Response body of a probe as stored in the telemetry record
(src/routes/api.js:374-379 and 385): parsed JSON when the content type says
so, raw text otherwise, or the error object built in the catch block. -/
inductive RespBody where
  | jsonBody (raw : String)
  | textBody (raw : String)
  | errorObj (message : String)
deriving DecidableEq

/-- Outcome of the `fetch` call at src/routes/api.js:363: either a response
(status, status text, header list, whether the content type contains
`application/json`, and the raw body) or a transport-level rejection carrying
the error message. -/
inductive FetchOutcome where
  | success (status : Nat) (statusText : String)
      (headerList : List (String × String)) (jsonCT : Bool) (raw : String)
  | failure (message : String)

/-- Identifiers bound in the route handler's function scope at the point record
construction runs (src/routes/api.js:326-420): the parameters, the `const`
declarations before the try block, `let response, responseBody, statusCode,
statusText` (line 359), and `endTime`/`duration` (lines 388-389).
`responseHeaders` is declared with `const` INSIDE the try block
(src/routes/api.js:368), so it is block-scoped there and absent here. -/
def handlerScope : List String :=
  ["id", "headers", "queryParams", "requestBody", "environment", "endpoint",
   "url", "requestOptions", "startTime", "response", "responseBody",
   "statusCode", "statusText", "endTime", "duration", "ApiRequest", "uuidv4",
   "apiRequest"]

/-- JavaScript identifier resolution against the handler's function scope:
reading a name that is not bound throws a `ReferenceError`. -/
def lookupIdent (n : String) : Except String Unit :=
  if handlerScope.contains n then Except.ok ()
  else Except.error ("ReferenceError: " ++ n ++ " is not defined")

/-- The telemetry-record fields relevant to the claims, as assembled at
src/routes/api.js:395-420. -/
structure TelemetryRecord where
  statusCode : Nat
  statusText : String
  bodyDesc : RespBody
  durationMs : Int
deriving DecidableEq

/-- Construction of the `ApiRequest` document (src/routes/api.js:395-420).
Evaluating the object literal reaches `headers: responseHeaders || {}`
(line 409), which first resolves the identifier `responseHeaders` in the
enclosing scope; that lookup is what can throw. -/
def buildApiRequest (st : Nat) (stx : String) (body : RespBody) (dur : Int) :
    Except String TelemetryRecord := do
  let _ ← lookupIdent "responseHeaders"
  pure { statusCode := st, statusText := stx, bodyDesc := body,
         durationMs := dur }

/-- Observable result of one invocation of `POST /api/endpoints/:id/test`:
HTTP status of the route's own response, the telemetry records persisted by
`apiRequest.save()` (line 422), and whether the endpoint metrics update
(lines 425-441) ran. -/
structure RouteResult where
  status : Nat
  persisted : List TelemetryRecord
  metricsUpdated : Bool
deriving DecidableEq

/-- The probe executor route, src/routes/api.js:358-478, from the point the
endpoint is found.  The inner try/catch (lines 361-386) turns a transport
failure into `statusCode = 0`, `statusText = "Network Error"` and an error
body; `duration` is `endTime - startTime` (line 389); then the record is
constructed and saved and the metrics updated, all inside the outer `try`
whose `catch` (lines 471-477) answers 500 and persists nothing. -/
def testEndpointRoute (o : FetchOutcome) (startMs endMs : Int) : RouteResult :=
  let stStxBody : Nat × String × RespBody :=
    match o with
    | FetchOutcome.success status statusText _ jsonCT raw =>
        (status, statusText,
          if jsonCT then RespBody.jsonBody raw else RespBody.textBody raw)
    | FetchOutcome.failure msg =>
        (0, "Network Error", RespBody.errorObj msg)
  let dur : Int := endMs - startMs
  match buildApiRequest stStxBody.1 stStxBody.2.1 stStxBody.2.2 dur with
  | Except.ok rec =>
      { status := 200, persisted := [rec], metricsUpdated := true }
  | Except.error _ =>
      { status := 500, persisted := [], metricsUpdated := false }

/-- C3: the probe route never persists a telemetry record at all.  Building
the `ApiRequest` document evaluates `responseHeaders` (src/routes/api.js:409),
but that identifier is block-scoped to the try block (line 368), so every
invocation — transport failure or success — throws a `ReferenceError`, is
caught by the outer catch, answers 500, and performs neither the save nor the
metrics update.  In particular a network-failure probe does NOT produce the
claimed record with `statusCode = 0`. -/
theorem c3_probe_route_referenceError (o : FetchOutcome) (startMs endMs : Int) :
    testEndpointRoute o startMs endMs =
      { status := 500, persisted := [], metricsUpdated := false } := by
  cases o <;> rfl

/-- Declared header of an endpoint (src/models/ApiEndpoint.js:50-63). -/
structure EndpointHeader where
  name : String
  value : String
  required : Bool
deriving DecidableEq

/-- The endpoint fields used by the claims under study
(src/models/ApiEndpoint.js): base URL, path, the materialized full URL, and
the declared header list. -/
structure Endpoint where
  baseUrl : String
  path : String
  fullUrl : String
  headers : List EndpointHeader
deriving DecidableEq

/-- JavaScript object-literal property assignment `obj[k] = v` as used by
spread: an existing key keeps its position and gets the new value, a new key
is appended. -/
def setKey : List (String × String) → String → String → List (String × String)
  | [], k, v => [(k, v)]
  | p :: rest, k, v =>
      if p.1 = k then (k, v) :: rest else p :: setKey rest k v

/-- JavaScript object spread { base, ...ov }: the override entries are
assigned onto the base object in order. -/
def spreadInto (base ov : List (String × String)) : List (String × String) :=
  ov.foldl (fun acc p => setKey acc p.1 p.2) base

/-- The outgoing request headers of a probe (src/routes/api.js:345-351):

  headers: { 'Content-Type': 'application/json', ...headers }

The caller's override headers are spread onto the single fixed entry; the
endpoint's declared headers (`endpoint.headers`) are never consulted, which is
why the endpoint argument is unused. -/
def buildTestHeaders (_e : Endpoint) (overrides : List (String × String)) :
    List (String × String) :=
  spreadInto [("Content-Type", "application/json")] overrides

/-- A sample endpoint with one declared header, used to exercise the header
construction and the URL materialization on concrete data. -/
def sampleEndpoint : Endpoint :=
  { baseUrl := "https://api.example.com"
    path := "/v1/ping"
    fullUrl := "https://api.example.com/v1/ping"
    headers := [{ name := "X-Api-Key", value := "secret", required := true }] }

/-- C8 counterexample: the sample endpoint declares the header `X-Api-Key`,
the caller supplies no overrides, yet the outgoing request headers do not
contain `X-Api-Key` — declared endpoint headers never reach the outgoing
request, refuting the claimed merge. -/
theorem c8_counterexample_declared_header_dropped :
    sampleEndpoint.headers.map EndpointHeader.name = ["X-Api-Key"] ∧
    (buildTestHeaders sampleEndpoint []).lookup "X-Api-Key" = none := by
  decide

theorem lookup_setKey_self (l : List (String × String)) (k v : String) :
    (setKey l k v).lookup k = some v := by
  induction l with
  | nil => simp [setKey, List.lookup]
  | cons p rest ih =>
      by_cases h : p.1 = k
      · simp [setKey, h, List.lookup]
      · have hbe : (k == p.1) = false :=
          beq_eq_false_iff_ne.mpr (fun he => h he.symm)
        simp [setKey, h, List.lookup, hbe, ih]

theorem lookup_setKey_ne (l : List (String × String)) (k v k0 : String)
    (h : k0 ≠ k) : (setKey l k v).lookup k0 = l.lookup k0 := by
  have hbe : (k0 == k) = false := beq_eq_false_iff_ne.mpr h
  induction l with
  | nil => simp [setKey, List.lookup, hbe]
  | cons p rest ih =>
      by_cases hp : p.1 = k
      · subst hp
        simp [setKey, List.lookup, hbe]
      · simp [setKey, hp, List.lookup, ih]

theorem lookup_eq_none_of_not_mem_keys (l : List (String × String))
    (k : String) (h : k ∉ l.map Prod.fst) : l.lookup k = none := by
  induction l with
  | nil => rfl
  | cons p rest ih =>
      simp only [List.map_cons, List.mem_cons] at h
      push_neg at h
      have hbe : (k == p.1) = false := beq_eq_false_iff_ne.mpr h.1
      simp [List.lookup, hbe, ih h.2]

theorem lookup_spreadInto (ov : List (String × String))
    (base : List (String × String)) (k : String)
    (h : (ov.map Prod.fst).Nodup) :
    (spreadInto base ov).lookup k =
      match ov.lookup k with
      | some v => some v
      | none => base.lookup k := by
  induction ov generalizing base with
  | nil => simp [spreadInto]
  | cons p rest ih =>
      simp only [List.map_cons, List.nodup_cons] at h
      have hstep : spreadInto base (p :: rest) =
          spreadInto (setKey base p.1 p.2) rest := rfl
      rw [hstep, ih _ h.2]
      by_cases hk : k = p.1
      · have hrest : rest.lookup k = none := by
          rw [hk]
          exact lookup_eq_none_of_not_mem_keys rest p.1 h.1
        have hcons : (p :: rest).lookup k = some p.2 := by
          have hbe : (k == p.1) = true := beq_iff_eq.mpr hk
          simp [List.lookup, hbe]
        rw [hrest, hcons, hk, lookup_setKey_self]
      · have hbe : (k == p.1) = false := beq_eq_false_iff_ne.mpr hk
        have hbk : (p :: rest).lookup k = rest.lookup k := by
          simp [List.lookup, hbe]
        rw [hbk, lookup_setKey_ne base p.1 p.2 k hk]

/-- C8 (amended): the outgoing probe headers are exactly the fixed base object
with `Content-Type: application/json` merged with the caller's override
headers — an override value wins on any key collision (including for
`Content-Type`), and the endpoint's declared headers are not consulted at
all. -/
theorem c8_amended_header_merge (e : Endpoint)
    (ov : List (String × String)) (k : String)
    (h : (ov.map Prod.fst).Nodup) :
    (buildTestHeaders e ov).lookup k =
      match ov.lookup k with
      | some v => some v
      | none =>
          if k = "Content-Type" then some "application/json" else none := by
  unfold buildTestHeaders
  rw [lookup_spreadInto ov _ k h]
  have hbase : ([("Content-Type", "application/json")] :
      List (String × String)).lookup k =
      (if k = "Content-Type" then some "application/json" else none) := by
    by_cases hk : k = "Content-Type"
    · simp [List.lookup, hk]
    · have hbe : (k == "Content-Type") = false := beq_eq_false_iff_ne.mpr hk
      simp [List.lookup, hbe, hk]
  rw [hbase]

/-- C8 amended witness: with the single override `Content-Type: text/plain`
the override value wins over the fixed base entry. -/
theorem c8_amended_header_merge_witness :
    (buildTestHeaders sampleEndpoint
        [("Content-Type", "text/plain")]).lookup "Content-Type" =
      match ([("Content-Type", "text/plain")] :
          List (String × String)).lookup "Content-Type" with
      | some v => some v
      | none =>
          if "Content-Type" = "Content-Type" then some "application/json"
          else none :=
  c8_amended_header_merge sampleEndpoint [("Content-Type", "text/plain")]
    "Content-Type" (by decide)

/-- Duration computed by the probe executor (src/routes/api.js:388-389):
`endTime.getTime() - startTime.getTime()`, a plain difference in
milliseconds. -/
def probeDuration (startMs endMs : Int) : Int :=
  endMs - startMs

/-- The `timing` block of an `ApiRequest` (src/unnamed/part_001:264-277).
Start and end times are optional because the pre-save hook guards on their
presence. -/
structure Timing where
  startTime : Option Int
  endTime : Option Int
  duration : Int
deriving DecidableEq

/-- The `ApiRequest` pre-save middleware (src/unnamed/part_001:404-410):

  if (this.timing.startTime && this.timing.endTime)
    this.timing.duration =
      this.timing.endTime.getTime() - this.timing.startTime.getTime();
-/
def preSaveTiming (t : Timing) : Timing :=
  match t.startTime, t.endTime with
  | some s, some e => { t with duration := e - s }
  | _, _ => t

/-- Timing block as submitted to `apiRequest.save()`, with the caller-supplied
duration field. -/
def mkTiming (s e : Option Int) (d : Int) : Timing :=
  { startTime := s, endTime := e, duration := d }

/-- C9 counterexample: with `startTime = 1` and `endTime = 0` the probe
computes duration `-1` and the store's write-time derivation persists `-1`
(overwriting a caller-supplied `7`) — there is no zero floor anywhere, so the
claim that duration is never negative is false. -/
theorem c9_counterexample_negative_duration :
    probeDuration 1 0 < 0 ∧
    (preSaveTiming (mkTiming (some 1) (some 0) 7)).duration < 0 := by
  decide

/-- C9 (amended): both the probe executor and the write-time derivation set
`duration = endTime - startTime` with no zero floor; the persisted duration
is nonnegative exactly when `startTime ≤ endTime` (which the claim's floor
would otherwise force). -/
theorem c9_amended_duration_no_floor (s e d : Int) (h : s ≤ e) :
    probeDuration s e = e - s ∧ 0 ≤ probeDuration s e ∧
    (preSaveTiming (mkTiming (some s) (some e) d)).duration = e - s ∧
    0 ≤ (preSaveTiming (mkTiming (some s) (some e) d)).duration := by
  refine ⟨rfl, ?_, rfl, ?_⟩ <;>
    simp [probeDuration, preSaveTiming, mkTiming] <;> omega

/-- C9 amended witness: the amended statement at start 0, end 5, caller
duration 42. -/
theorem c9_amended_duration_no_floor_witness :
    probeDuration 0 5 = 5 - 0 ∧ 0 ≤ probeDuration 0 5 ∧
    (preSaveTiming (mkTiming (some 0) (some 5) 42)).duration = 5 - 0 ∧
    0 ≤ (preSaveTiming (mkTiming (some 0) (some 5) 42)).duration :=
  c9_amended_duration_no_floor 0 5 42 (by decide)

/-- The `ApiEndpoint` pre-save middleware (src/models/ApiEndpoint.js:199-203):
every save re-materializes `fullUrl` from the current `baseUrl` and `path`. -/
def preSaveHook (e : Endpoint) : Endpoint :=
  { e with fullUrl := e.baseUrl ++ e.path }

/-- Endpoint creation (src/routes/api.js:119-126): the route sets
`fullUrl: baseUrl + path` and then `endpoint.save()` runs the pre-save
hook. -/
def createEndpointRoute (baseUrl path : String) (hs : List EndpointHeader) :
    Endpoint :=
  preSaveHook
    { baseUrl := baseUrl, path := path, fullUrl := baseUrl ++ path,
      headers := hs }

/-- Body fields of a PUT /api/endpoints/:id request that can affect the URL
invariant (src/routes/api.js:192-239).  The route assigns the WHOLE request
body to `updateData` (line 221) and passes it to `findByIdAndUpdate` with no
field whitelist — express-validator checks listed fields but strips nothing —
so a caller may also supply the schema path `fullUrl` directly.  A field is
`none` when absent from the request body. -/
structure UpdateData where
  baseUrl : Option String
  path : Option String
  fullUrl : Option String
deriving DecidableEq

/-- JavaScript truthiness of an optional string: absent and the empty string
are falsy. -/
def jsTruthyStr : Option String → Bool
  | none => false
  | some s => !(s == "")

/-- The PUT /api/endpoints/:id route (src/routes/api.js:227-239):

  if (updateData.baseUrl || updateData.path) {
    const newBaseUrl = updateData.baseUrl || currentEndpoint.baseUrl;
    const newPath = updateData.path || currentEndpoint.path;
    updateData.fullUrl = newBaseUrl + newPath;
  }
  ApiEndpoint.findByIdAndUpdate(id, updateData, ...)

When `baseUrl` or `path` is truthy the recomputation overwrites any
caller-supplied `fullUrl` in the body; otherwise a caller-supplied `fullUrl`
survives in `updateData` and `findByIdAndUpdate` (line 235) applies it
verbatim — `findByIdAndUpdate` applies every present field and bypasses the
pre-save hook. -/
def putEndpointRoute (cur : Endpoint) (upd : UpdateData) : Endpoint :=
  let fullUrlUpd : Option String :=
    if jsTruthyStr upd.baseUrl || jsTruthyStr upd.path then
      let newBaseUrl :=
        match upd.baseUrl with
        | some s => if s == "" then cur.baseUrl else s
        | none => cur.baseUrl
      let newPath :=
        match upd.path with
        | some s => if s == "" then cur.path else s
        | none => cur.path
      some (newBaseUrl ++ newPath)
    else upd.fullUrl
  { cur with
    baseUrl := upd.baseUrl.getD cur.baseUrl
    path := upd.path.getD cur.path
    fullUrl := fullUrlUpd.getD cur.fullUrl }

/-- A PUT body that sets `fullUrl` directly and supplies neither `baseUrl`
nor `path`. -/
def evilUpdate : UpdateData :=
  { baseUrl := none, path := none, fullUrl := some "http://evil" }

/-- A PUT body that changes only the path. -/
def pathOnlyUpdate : UpdateData :=
  { baseUrl := none, path := some "/v2/ping", fullUrl := none }

/-- C10 counterexample: starting from a consistent endpoint, a PUT body that
supplies `fullUrl` directly and neither `baseUrl` nor `path` skips the
recomputation at src/routes/api.js:228-233, bypasses the pre-save hook
(`findByIdAndUpdate`), and stores the caller's value verbatim — afterwards
the stored `fullUrl` differs from `baseUrl ++ path`, so the invariant does
not hold after every update through the PUT route. -/
theorem c10_counterexample_direct_fullUrl :
    sampleEndpoint.fullUrl = sampleEndpoint.baseUrl ++ sampleEndpoint.path ∧
    (putEndpointRoute sampleEndpoint evilUpdate).fullUrl ≠
      (putEndpointRoute sampleEndpoint evilUpdate).baseUrl ++
        (putEndpointRoute sampleEndpoint evilUpdate).path := by
  decide

/-- C10 (amended): every mongoose save re-materializes `fullUrl` (so creation
establishes `fullUrl = baseUrl + path`), and the PUT route preserves the
equality for every valid request body that either changes `baseUrl` or `path`
(the route then recomputes `fullUrl`, overwriting any caller-supplied value)
or does not supply `fullUrl` directly.  A body supplying `fullUrl` with
neither `baseUrl` nor `path` is stored verbatim and can break the equality
(see the counterexample).  Route validation (src/routes/api.js:194 and 197)
rejects an empty `path` or non-URL `baseUrl`, so any present field is a
non-empty string. -/
theorem c10_fullUrl_consistency (cur : Endpoint) (upd : UpdateData)
    (hb : ∀ s, upd.baseUrl = some s → s ≠ "")
    (hp : ∀ s, upd.path = some s → s ≠ "")
    (hf : upd.fullUrl = none ∨
      (jsTruthyStr upd.baseUrl || jsTruthyStr upd.path) = true)
    (hinv : cur.fullUrl = cur.baseUrl ++ cur.path) :
    (∀ e : Endpoint,
      (preSaveHook e).fullUrl = (preSaveHook e).baseUrl ++ (preSaveHook e).path) ∧
    (∀ b p hs, (createEndpointRoute b p hs).fullUrl =
      (createEndpointRoute b p hs).baseUrl ++ (createEndpointRoute b p hs).path) ∧
    (putEndpointRoute cur upd).fullUrl =
      (putEndpointRoute cur upd).baseUrl ++ (putEndpointRoute cur upd).path := by
  refine ⟨fun e => rfl, fun b p hs => rfl, ?_⟩
  unfold putEndpointRoute jsTruthyStr
  rcases hub : upd.baseUrl with _ | sb <;> rcases hup : upd.path with _ | sp
  · have hfn : upd.fullUrl = none := by
      rcases hf with h | h
      · exact h
      · rw [hub, hup] at h
        simp [jsTruthyStr] at h
    simp [hfn, hinv]
  · have hsp : sp ≠ "" := hp sp hup
    have hbe : (sp == "") = false := beq_eq_false_iff_ne.mpr hsp
    simp [hbe]
  · have hsb : sb ≠ "" := hb sb hub
    have hbe : (sb == "") = false := beq_eq_false_iff_ne.mpr hsb
    simp [hbe]
  · have hsb : sb ≠ "" := hb sb hub
    have hsp : sp ≠ "" := hp sp hup
    have hbeb : (sb == "") = false := beq_eq_false_iff_ne.mpr hsb
    have hbep : (sp == "") = false := beq_eq_false_iff_ne.mpr hsp
    simp [hbeb, hbep]

/-- C10 witness: updating only the path of the sample endpoint (no direct
`fullUrl` in the body) keeps `fullUrl` equal to `baseUrl + path`. -/
theorem c10_fullUrl_consistency_witness :
    (∀ e : Endpoint,
      (preSaveHook e).fullUrl = (preSaveHook e).baseUrl ++ (preSaveHook e).path) ∧
    (∀ b p hs, (createEndpointRoute b p hs).fullUrl =
      (createEndpointRoute b p hs).baseUrl ++ (createEndpointRoute b p hs).path) ∧
    (putEndpointRoute sampleEndpoint pathOnlyUpdate).fullUrl =
      (putEndpointRoute sampleEndpoint pathOnlyUpdate).baseUrl ++
        (putEndpointRoute sampleEndpoint pathOnlyUpdate).path :=
  c10_fullUrl_consistency sampleEndpoint pathOnlyUpdate
    (by intro s hs; cases hs) (by intro s hs; cases hs; decide)
    (Or.inl rfl) rfl

/-- A stored `timing.startTime` value as the aggregation pipelines see it:
the linear epoch-millisecond value used by the `$gte` range filter, together
with the calendar fields that the MongoDB date operators `$year`, `$month`,
`$dayOfMonth`, `$hour` and `$week` project out of it
(src/routes/tracking.js:404-431). -/
structure CalTime where
  ms : Int
  year : Nat
  month : Nat
  day : Nat
  hour : Nat
  week : Nat
deriving DecidableEq

/-- The fields of a stored `ApiRequest` document read by the tracking
aggregations (src/unnamed/part_001): owning product, environment tag,
optional user id, endpoint id, response status code and size, and the timing
block's start time and duration. -/
structure TrackRecord where
  product : String
  environment : String
  userId : Option String
  endpointId : String
  statusCode : Nat
  duration : Int
  size : Nat
  time : CalTime
deriving DecidableEq

/-- The `$match` filter of GET /api/tracking/analytics
(src/routes/tracking.js:394-399): `timing.startTime >= startDate` plus
optional product and environment equality; filters are conjunctive and an
absent filter matches everything. -/
structure TrackFilter where
  startDate : Int
  product : Option String
  environment : Option String

/-- Success classification used by every aggregation stage
(src/routes/tracking.js:443-446 and elsewhere): `200 <= statusCode < 300`. -/
def isSuccessCode (s : Nat) : Bool :=
  200 ≤ s && s < 300

/-- Failure classification used by every aggregation stage
(src/routes/tracking.js:455): `statusCode >= 400`. -/
def isFailCode (s : Nat) : Bool :=
  400 ≤ s

/-- Whether a record passes the analytics `$match` stage. -/
def matchesFilter (f : TrackFilter) (r : TrackRecord) : Bool :=
  f.startDate ≤ r.time.ms &&
  (match f.product with
   | none => true
   | some p => r.product == p) &&
  (match f.environment with
   | none => true
   | some env => r.environment == env)

/-- The `groupBy` query parameter of GET /api/tracking/analytics
(src/routes/tracking.js:358). -/
inductive GroupBy where
  | hour
  | day
  | week
  | month

/-- The `$group` key built from the `groupBy` parameter
(src/routes/tracking.js:401-431): calendar fields of `timing.startTime`,
rendered here as the list of field values. -/
def groupFields : GroupBy → CalTime → List Nat
  | GroupBy.hour, t => [t.year, t.month, t.day, t.hour]
  | GroupBy.day, t => [t.year, t.month, t.day]
  | GroupBy.week, t => [t.year, t.week]
  | GroupBy.month, t => [t.year, t.month]

/-- One formatted analytics bucket (src/routes/tracking.js:434-516): the
`$group` accumulators relevant to the claims plus the `successRate` that the
`$addFields` stage and the `Math.round` at line 508 produce together. -/
structure BucketSummary where
  key : List Nat
  totalRequests : Nat
  successfulRequests : Nat
  failedRequests : Nat
  successRate : Nat
deriving DecidableEq

/-- The analytics aggregation of GET /api/tracking/analytics
(src/routes/tracking.js:434-516): `$match`, then `$group` by the calendar
key — MongoDB produces one group per distinct key value, each accumulating
over the records having that key — then the `$addFields` success rate
(`$cond` guarding totalRequests = 0, src/routes/tracking.js:469-477) rounded
by the route at line 508. -/
def bucketFor (g : GroupBy) (m : List TrackRecord) (k : List Nat) :
    BucketSummary :=
  -- One `$group` output document for key `k` over the matched records `m`,
  -- with the `$addFields` success rate rounded as at line 508.
  let grp := m.filter (fun r => groupFields g r.time == k)
  let t := grp.length
  let s := grp.countP (fun r => isSuccessCode r.statusCode)
  { key := k
    totalRequests := t
    successfulRequests := s
    failedRequests := grp.countP (fun r => isFailCode r.statusCode)
    successRate := if t = 0 then 100 else jroundNat (100 * s) t }

/-- Full pipeline of GET /api/tracking/analytics: `$match`, then one bucket
per distinct group key among the matching records. -/
def analyticsBuckets (g : GroupBy) (f : TrackFilter)
    (rs : List TrackRecord) : List BucketSummary :=
  let m := rs.filter (fun r => matchesFilter f r)
  let keys := (m.map (fun r => groupFields g r.time)).dedup
  keys.map (bucketFor g m)

theorem bucketFor_totalRequests (g : GroupBy) (m : List TrackRecord)
    (k : List Nat) :
    (bucketFor g m k).totalRequests =
      (m.filter (fun r => groupFields g r.time == k)).length := rfl

/-- Sizes of the groups of a keyed grouping sum to the length of the grouped
list: every element lands in exactly the group of its own key. -/
theorem sum_group_sizes {α β : Type} [DecidableEq β] (l : List α) (k : α → β) :
    ((l.map k).dedup.map
        (fun x => (l.filter (fun r => k r == x)).length)).sum = l.length := by
  have h1 : ∀ x : β, (l.filter (fun r => k r == x)).length =
      (l.map k).count x := by
    intro x
    rw [← List.countP_eq_length_filter]
    simp only [List.count, List.countP_map]
    rfl
  simp only [h1]
  have h2 := List.sum_map_count_dedup_eq_length (l.map k)
  rwa [List.length_map] at h2

/-- C5: for every bucket granularity and every analytics filter, the
`totalRequests` of the returned buckets sum to the number of records matching
the filter over the whole range — the `$group` stage puts every matching
record in exactly one bucket, none dropped, none double-counted. -/
theorem c5_bucket_totals_partition (g : GroupBy) (f : TrackFilter)
    (rs : List TrackRecord) :
    ((analyticsBuckets g f rs).map (fun b => b.totalRequests)).sum =
      (rs.filter (fun r => matchesFilter f r)).length := by
  unfold analyticsBuckets
  rw [List.map_map]
  simp only [Function.comp_def, bucketFor_totalRequests, beq_eq_decide]
  simpa only [beq_eq_decide] using
    sum_group_sizes (rs.filter (fun r => matchesFilter f r))
      (fun r => groupFields g r.time)

/-- The `successRate` virtual of the endpoint model
(src/models/ApiEndpoint.js:182-186):

  if (this.metrics.totalRequests === 0) return 100;
  return Math.round(
    (this.metrics.successfulRequests / this.metrics.totalRequests) * 100);
-/
def successRateVirtual (m : Metrics) : Nat :=
  if m.totalRequests = 0 then 100
  else jroundNat (100 * m.successfulRequests) m.totalRequests

/-- The `$match` filter of GET /api/tracking/dashboard
(src/routes/tracking.js:49-52): start-time range plus optional
environment. -/
def dashboardMatches (startDate : Int) (env : Option String)
    (r : TrackRecord) : Bool :=
  startDate ≤ r.time.ms &&
  (match env with
   | none => true
   | some e => r.environment == e)

/-- The dashboard overview counters (src/routes/tracking.js:55-88 with the
empty-result default of lines 193-201) and its success rate
(lines 219-223): `round(successfulRequests / totalRequests * 100)` when
`totalRequests > 0`, otherwise `100`. -/
structure OverviewMetrics where
  totalRequests : Nat
  successfulRequests : Nat
  failedRequests : Nat
  successRate : Nat
deriving DecidableEq

def dashboardOverview (startDate : Int) (env : Option String)
    (rs : List TrackRecord) : OverviewMetrics :=
  let m := rs.filter (fun r => dashboardMatches startDate env r)
  let t := m.length
  let s := m.countP (fun r => isSuccessCode r.statusCode)
  { totalRequests := t
    successfulRequests := s
    failedRequests := m.countP (fun r => isFailCode r.statusCode)
    successRate := if 0 < t then jroundNat (100 * s) t else 100 }

/-- Rounded percentage bound: with `s ≤ t` and `t > 0`,
`Math.round(s / t * 100) ≤ 100`. -/
theorem jroundNat_percent_le_100 (s t : Nat) (hs : s ≤ t) (ht : t ≠ 0) :
    jroundNat (100 * s) t ≤ 100 := by
  unfold jroundNat
  have h2t : 0 < 2 * t := by omega
  have hlt : 2 * (100 * s) + t < 101 * (2 * t) := by omega
  have := (Nat.div_lt_iff_lt_mul h2t).mpr hlt
  omega

/-- C6: everywhere a `successRate` is reported — the endpoint metrics virtual
(on any metrics state with `successfulRequests ≤ totalRequests`, which the
recorder preserves), the dashboard overview, and every per-bucket analytics
summary — it is a natural number at most 100 (hence an integer in [0,100]),
and it equals 100 whenever `totalRequests = 0` in that scope. -/
theorem c6_successRate_bounds (em : Metrics)
    (hm : em.successfulRequests ≤ em.totalRequests) :
    (successRateVirtual em ≤ 100 ∧
      (em.totalRequests = 0 → successRateVirtual em = 100)) ∧
    (∀ (sd : Int) (env : Option String) (rs : List TrackRecord),
      (dashboardOverview sd env rs).successRate ≤ 100 ∧
      ((dashboardOverview sd env rs).totalRequests = 0 →
        (dashboardOverview sd env rs).successRate = 100)) ∧
    (∀ (g : GroupBy) (f : TrackFilter) (rs : List TrackRecord)
      (b : BucketSummary), b ∈ analyticsBuckets g f rs →
      b.successRate ≤ 100 ∧ (b.totalRequests = 0 → b.successRate = 100)) := by
  refine ⟨⟨?_, ?_⟩, ?_, ?_⟩
  · unfold successRateVirtual
    split_ifs with h
    · exact le_refl 100
    · exact jroundNat_percent_le_100 _ _ hm h
  · intro h
    unfold successRateVirtual
    simp [h]
  · intro sd env rs
    simp only [dashboardOverview]
    constructor
    · split_ifs with h
      · exact jroundNat_percent_le_100 _ _ (List.countP_le_length _) (by omega)
      · exact le_refl 100
    · intro h
      split_ifs with h2
      · exact absurd h2 (by omega)
      · rfl
  · intro g f rs b hb
    simp only [analyticsBuckets, List.mem_map] at hb
    obtain ⟨k, _, rfl⟩ := hb
    simp only [bucketFor]
    constructor
    · split_ifs with h
      · exact le_refl 100
      · exact jroundNat_percent_le_100 _ _ (List.countP_le_length _) h
    · intro h
      split_ifs
      rfl

/-- C6 witness: the bounds at the default (empty) endpoint metrics, a
concrete dashboard query over no records, and a concrete analytics query. -/
theorem c6_successRate_bounds_witness :
    (successRateVirtual initMetrics ≤ 100 ∧
      (initMetrics.totalRequests = 0 → successRateVirtual initMetrics = 100)) ∧
    (∀ (sd : Int) (env : Option String) (rs : List TrackRecord),
      (dashboardOverview sd env rs).successRate ≤ 100 ∧
      ((dashboardOverview sd env rs).totalRequests = 0 →
        (dashboardOverview sd env rs).successRate = 100)) ∧
    (∀ (g : GroupBy) (f : TrackFilter) (rs : List TrackRecord)
      (b : BucketSummary), b ∈ analyticsBuckets g f rs →
      b.successRate ≤ 100 ∧ (b.totalRequests = 0 → b.successRate = 100)) :=
  c6_successRate_bounds initMetrics (by decide)

/-- One output row of the top-products `$group` stage
(src/routes/tracking.js:118-136): the group key `_id` (the entity's own
identifier) and its request count.  The other accumulators play no role in
the ordering. -/
structure RankRow where
  id : String
  requestCount : Nat
deriving DecidableEq

/-- Sorted as specified by the `$sort` stage of the top-products ranking
(src/routes/tracking.js:137): request count descending — the stage names no
secondary key, so this is the entire ordering constraint.  (The
slowest-endpoints ranking at src/routes/tracking.js:655 likewise sorts by a
single key, `avgResponseTime: -1`.) -/
def SortedByCountDesc (l : List RankRow) : Prop :=
  List.Sorted (fun a b => b.requestCount ≤ a.requestCount) l

/-- A list MongoDB may return for `$sort: (requestCount: -1)` over the given
group rows: any permutation of the rows that is sorted by request count
descending.  MongoDB leaves the relative order of equal sort keys
unspecified. -/
def IsMongoSortOutput (rows out : List RankRow) : Prop :=
  rows.Perm out ∧ SortedByCountDesc out

/-- The ordering property claimed by the spec: among rows with equal request
counts, the lexically smaller identifier comes first. -/
def TiesLexAscending (out : List RankRow) : Prop :=
  List.Pairwise (fun a b => a.requestCount = b.requestCount → a.id ≤ b.id) out

/-- Group rows for two products with the same request count. -/
def rowAlpha : RankRow := { id := "alpha", requestCount := 5 }

def rowBeta : RankRow := { id := "beta", requestCount := 5 }

/-- C7 counterexample: over the same group rows, both orders of the two
tied rows are valid `$sort` outputs — so the output is not deterministic,
and the valid output placing `beta` before `alpha` violates the claimed
ascending-identifier tie-break. -/
theorem c7_counterexample_tie_order :
    IsMongoSortOutput [rowAlpha, rowBeta] [rowBeta, rowAlpha] ∧
    ¬ TiesLexAscending [rowBeta, rowAlpha] ∧
    IsMongoSortOutput [rowAlpha, rowBeta] [rowAlpha, rowBeta] ∧
    ([rowBeta, rowAlpha] : List RankRow) ≠ [rowAlpha, rowBeta] := by
  refine ⟨⟨List.Perm.swap _ _ _, ?_⟩, ?_, ⟨List.Perm.refl _, ?_⟩, by decide⟩
  · simp [SortedByCountDesc, rowAlpha, rowBeta]
  · intro hp
    have h := List.rel_of_pairwise_cons hp (List.mem_singleton.mpr rfl)
    have hle : rowBeta.id ≤ rowAlpha.id := h (by decide)
    rw [String.le_iff_toList_le] at hle
    exact absurd hle (by decide)
  · simp [SortedByCountDesc, rowAlpha, rowBeta]

/-- C7 (amended): the `$sort` stages order rankings by their single numeric
key only (request count for the volume ranking) with no identifier
tie-break, so the output order is fully determined only when the sort keys
are pairwise distinct: in that case any two valid `$sort` outputs over the
same rows are equal, while tied keys leave the order unspecified (see the
counterexample). -/
theorem c7_amended_deterministic_when_distinct (rows out1 out2 : List RankRow)
    (hnd : (rows.map RankRow.requestCount).Nodup)
    (h1 : IsMongoSortOutput rows out1) (h2 : IsMongoSortOutput rows out2) :
    out1 = out2 := by
  obtain ⟨p1, s1⟩ := h1
  obtain ⟨p2, s2⟩ := h2
  have key : ∀ out : List RankRow, rows.Perm out → SortedByCountDesc out →
      List.Sorted (fun a b : RankRow => b.requestCount < a.requestCount) out := by
    intro out hp hs
    have hnd' : (out.map RankRow.requestCount).Nodup :=
      ((hp.map RankRow.requestCount).nodup_iff).mp hnd
    have hne : out.Pairwise
        (fun a b : RankRow => a.requestCount ≠ b.requestCount) :=
      List.pairwise_map.mp hnd'
    exact (hs.and hne).imp
      (fun hab => lt_of_le_of_ne hab.1 (fun he => hab.2 he.symm))
  haveI : IsAntisymm RankRow (fun a b => b.requestCount < a.requestCount) :=
    ⟨fun a b hab hba => absurd (hab.trans hba) (lt_irrefl _)⟩
  exact List.eq_of_perm_of_sorted (p1.symm.trans p2) (key out1 p1 s1)
    (key out2 p2 s2)

/-- C7 amended witness: with distinct request counts 5 and 3 the valid
output is unique. -/
theorem c7_amended_deterministic_witness :
    ([{ id := "alpha", requestCount := 5 },
      { id := "beta", requestCount := 3 }] : List RankRow) =
    [{ id := "alpha", requestCount := 5 },
     { id := "beta", requestCount := 3 }] :=
  c7_amended_deterministic_when_distinct
    [{ id := "alpha", requestCount := 5 }, { id := "beta", requestCount := 3 }]
    _ _ (by decide)
    ⟨List.Perm.refl _, by simp [SortedByCountDesc]⟩
    ⟨List.Perm.refl _, by simp [SortedByCountDesc]⟩
